import Mathlib

/-!
Shallow embedding of the ChimeraTK ApplicationCore variable-network model and
of the metadata (validity / version) propagation decorator, translated from
the repository sources:

  src/src/VariableNetwork.cc
  src/include/VariableNetworkNode.h
  src/src/MetaDataPropagatingRegisterDecorator.cc
  src/include/MetaDataPropagatingRegisterDecorator.h
  src/include/DeviceModule.h
  src/include/EntityOwner.h
  src/include/Application.h

C++ exceptions are modelled with explicit error results; C++ assert statements
are modelled as no-ops (release / NDEBUG semantics: an assert never throws an
exception and is absent from release builds).  Pointer identity of accessors
is modelled by a numeric identifier.
-/

namespace ChimeraTK

/-- NodeType from Flags.h (used via VariableNetworkNode.h): category of a
network node. -/
inductive NodeType where
  | Application
  | Device
  | ControlSystem
  | TriggerReceiver
  | invalid
deriving DecidableEq, Repr

/-- UpdateMode from Flags.h: push or poll transfer cadence of a node. -/
inductive UpdateMode where
  | push
  | poll
  | invalid
deriving DecidableEq, Repr

/-- VariableDirection from Flags.h: whether a node feeds or consumes. -/
inductive VariableDirection where
  | feeding
  | consuming
deriving DecidableEq, Repr

/-- The two application exception kinds thrown by the embedded functions
(ApplicationExceptionWithID with id illegalVariableNetwork resp.
illegalParameter), carrying the human-readable message. -/
inductive AppException where
  | illegalVariableNetwork (msg : String)
  | illegalParameter (msg : String)
deriving DecidableEq, Repr

/-- VariableNetworkNode (VariableNetworkNode.h lines 25-96): a thin descriptor
of one endpoint.  The C++ pointers appNode (accessor identity) and network
(owning network identity) are modelled as numeric identifiers; a node with no
owner has owner = none. -/
structure VariableNetworkNode where
  type : NodeType := NodeType.invalid
  mode : UpdateMode := UpdateMode.invalid
  direction : VariableDirection := VariableDirection.consuming
  accessorId : Nat := 0
  valueType : Nat := 0
  unit : String := ""
  owner : Option Nat := none
deriving DecidableEq, Repr

/-- AccessorBase as used by VariableNetwork.cc: identity (pointer, modelled as
a numeric id), feeding flag, value type and engineering unit, update mode. -/
structure AccessorBase where
  id : Nat
  isFeeding : Bool
  mode : UpdateMode
  valueType : Nat
  unit : String
deriving DecidableEq, Repr

/-- The VariableNetworkNode constructor for an Application node
(VariableNetworkNode.h line 30): wraps an accessor; the owner is set later via
setOwner. -/
def nodeOfAccessor (a : AccessorBase) : VariableNetworkNode :=
  { type := NodeType.Application
    mode := a.mode
    direction := if a.isFeeding then VariableDirection.feeding
                 else VariableDirection.consuming
    accessorId := a.id
    valueType := a.valueType
    unit := a.unit
    owner := none }

/-- VariableNetwork state (fields used by VariableNetwork.cc): one feeder
slot (an invalid node when absent), the consumer list, inferred value type and
engineering unit, and the optional external trigger network (a pointer,
modelled as a numeric identifier guarded by the hasExternalTrigger flag as in
the source). -/
structure VariableNetwork where
  id : Nat := 0
  feeder : VariableNetworkNode := {}
  consumerList : List VariableNetworkNode := []
  valueType : Nat := 0
  engineeringUnit : String := ""
  hasExternalTrigger : Bool := false
  externalTrigger : Option Nat := none
deriving DecidableEq, Repr

/-- TriggerType (VariableNetwork.h enum, used in VariableNetwork.cc). -/
inductive TriggerType where
  | feeder
  | pollingConsumer
  | external
  | none
deriving DecidableEq, Repr

namespace VariableNetwork

/-- VariableNetwork::hasFeedingNode (VariableNetwork.cc lines 36-39). -/
def hasFeedingNode (n : VariableNetwork) : Bool :=
  !(n.feeder.type == NodeType.invalid)

/-- VariableNetwork::countConsumingNodes (VariableNetwork.cc lines 43-45). -/
def countConsumingNodes (n : VariableNetwork) : Nat :=
  n.consumerList.length

/-- VariableNetwork::hasAppNode (VariableNetwork.cc lines 18-32): search for
accessor a (and optionally b) among the feeder and consumer Application
nodes.  Pointer comparison of accessors is modelled by id equality. -/
def hasAppNode (n : VariableNetwork) (a : Nat) (b : Option Nat) : Bool :=
  if n.feeder.type == NodeType.Application &&
     (n.feeder.accessorId == a ||
      (match b with
       | some bv => bv == n.feeder.accessorId
       | none => false)) then
    true
  else
    (n.consumerList.countP (fun c =>
      c.type == NodeType.Application &&
      (c.accessorId == a ||
       (match b with
        | some bv => bv == c.accessorId
        | none => false)))) > 0

/-- VariableNetwork::getTriggerType (VariableNetwork.cc lines 255-276). -/
def getTriggerType (n : VariableNetwork) : Except AppException TriggerType :=
  -- network has an external trigger
  if n.hasExternalTrigger then
    if n.feeder.mode == UpdateMode.push then
      Except.error (AppException.illegalVariableNetwork
        "Providing an external trigger to a variable network which is fed by a pushing variable is not allowed.")
    else
      Except.ok TriggerType.external
  -- network is fed by a pushing node
  else if n.feeder.mode == UpdateMode.push then
    Except.ok TriggerType.feeder
  -- network is fed by a poll-type node: must have exactly one polling consumer
  else
    let nPollingConsumers :=
      n.consumerList.countP (fun c => c.mode == UpdateMode.poll)
    if nPollingConsumers != 1 then
      Except.error (AppException.illegalVariableNetwork
        "In a network with a poll-type feeder and no external trigger, there must be exactly one polling consumer.")
    else
      Except.ok TriggerType.pollingConsumer

/-- VariableNetwork::check (VariableNetwork.cc lines 280-306).  The internal
assert statements (owner back-references and the push-mode requirement for an
Application-category feeder, lines 294-302) are modelled as no-ops: an assert
never raises an application exception. -/
def check (n : VariableNetwork) : Except AppException Unit :=
  -- must have consuming nodes
  if n.countConsumingNodes == 0 then
    Except.error (AppException.illegalVariableNetwork
      "Illegal variable network found: no consuming nodes connected!")
  -- must have a feeding node
  else if !n.hasFeedingNode then
    Except.error (AppException.illegalVariableNetwork
      "Illegal variable network found: no feeding node connected!")
  else
    -- the asserts on lines 294-302 are no-ops in release builds
    -- check if trigger is correctly defined
    match n.getTriggerType with
    | Except.error e => Except.error e
    | Except.ok _ => Except.ok ()

/-- VariableNetwork::getExternalTrigger (VariableNetwork.cc lines 310-316).
The returned pair carries the trigger network reference together with the
(unmodified) network state, mirroring that the C++ method mutates nothing. -/
def getExternalTrigger (n : VariableNetwork) :
    Except AppException (Option Nat × VariableNetwork) :=
  match n.getTriggerType with
  | Except.error e => Except.error e
  | Except.ok t =>
      if t != TriggerType.external then
        Except.error (AppException.illegalParameter
          "VariableNetwork::getExternalTrigger() may only be called if the trigger type is external.")
      else
        Except.ok (n.externalTrigger, n)

/-- Result of an add-node style operation: the exception thrown (if any) and
the network state afterwards.  In C++ the network object persists across a
throw, so the post-state is meaningful even in the error case. -/
structure AddResult where
  error : Option AppException
  net : VariableNetwork
deriving DecidableEq, Repr

/-- VariableNetwork::addNode (VariableNetwork.cc lines 91-119).  If the node
already has an owner the function returns immediately (the assert that the
owner is this network is a no-op in release builds).  Otherwise the owner is
set and the node is installed as feeder or appended to the consumer list. -/
def addNode (n : VariableNetwork) (a : VariableNetworkNode) : AddResult :=
  if a.owner.isSome then  -- already in the network
    { error := none, net := n }
  else
    let a₁ := { a with owner := some n.id }
    -- if node is feeding, save as feeder for this network
    if a₁.direction == VariableDirection.feeding then
      -- make sure we only have one feeding node per network
      if n.hasFeedingNode then
        { error := some (AppException.illegalVariableNetwork
            "Trying to add a feeding accessor to a network already having a feeding accessor.")
          net := n }
      else
        { error := none
          net := { n with valueType := a₁.valueType
                          engineeringUnit := a₁.unit
                          feeder := a₁ } }
    else
      -- add node to consumer list
      { error := none, net := { n with consumerList := n.consumerList ++ [a₁] } }

/-- VariableNetwork::addAppNode (VariableNetwork.cc lines 61-87).  If the
accessor is already a node of this network the call is a no-op; otherwise an
Application node is created for it, its owner is set, and it becomes the
feeder (single-feeder invariant enforced) or a consumer. -/
def addAppNode (n : VariableNetwork) (a : AccessorBase) : AddResult :=
  if n.hasAppNode a.id none then  -- already in the network
    { error := none, net := n }
  else
    let node := { nodeOfAccessor a with owner := some n.id }
    -- if node is feeding, save as feeder for this network
    if a.isFeeding then
      -- make sure we only have one feeding node per network
      if n.hasFeedingNode then
        { error := some (AppException.illegalVariableNetwork
            "Trying to add a feeding accessor to a network already having a feeding accessor.")
          net := n }
      else
        { error := none
          net := { n with valueType := a.valueType
                          engineeringUnit := a.unit
                          feeder := node } }
    else
      -- add node to consumer list
      { error := none, net := { n with consumerList := n.consumerList ++ [node] } }

end VariableNetwork

/-! ## Metadata propagation (MetaDataPropagatingRegisterDecorator) -/

/-- DataValidity flag from the ChimeraTK DeviceAccess base library. -/
inductive DataValidity where
  | ok
  | faulty
deriving DecidableEq, Repr

/-- TransferType from the ChimeraTK DeviceAccess base library (only the read
member is inspected by the embedded code). -/
inductive TransferType where
  | read
  | readNonBlocking
  | readLatest
  | write
  | writeDestructively
deriving DecidableEq, Repr

/-- State of an EntityOwner (an ApplicationModule or DeviceModule) as far as
the metadata propagation is concerned: the current version number (VersionNumber
modelled as a natural number, 0 being the distinguished null version), the data
fault counter, and the hash of the circular dependency network the module
belongs to (0 if none, per EntityOwner.h getCircularNetworkHash). -/
structure OwnerState where
  currentVersionNumber : Nat := 0
  dataFaultCounter : Nat := 0
  circularNetworkHash : Nat := 0
deriving DecidableEq, Repr

/-- DeviceModule::setCurrentVersionNumber (DeviceModule.h lines 81-83): the
stored version is replaced only by a strictly larger one. -/
def setCurrentVersionNumber (o : OwnerState) (versionNumber : Nat) : OwnerState :=
  if versionNumber > o.currentVersionNumber then
    { o with currentVersionNumber := versionNumber }
  else o

/-- Modelled from the spec: the concrete implementation of
EntityOwner::incrementDataFaultCounter (declared in EntityOwner.h lines
201-204, implemented in ApplicationModule which is not among the sources).
EntityOwner.h documents it as: set the data validity flag to fault and
increment the fault counter. -/
def incrementDataFaultCounter (o : OwnerState) : OwnerState :=
  { o with dataFaultCounter := o.dataFaultCounter + 1 }

/-- Modelled from the spec: the concrete implementation of
EntityOwner::decrementDataFaultCounter (declared in EntityOwner.h lines
206-210, implemented in ApplicationModule which is not among the sources).
EntityOwner.h documents it as: decrement the fault counter and set the data
validity flag to ok if the counter has reached 0. -/
def decrementDataFaultCounter (o : OwnerState) : OwnerState :=
  { o with dataFaultCounter := o.dataFaultCounter - 1 }

/-- Modelled from the spec: EntityOwner::getDataValidity (declared in
EntityOwner.h line 199, implemented outside the sources).  Per the spec, a
module is faulty exactly while its fault counter is non-zero. -/
def getDataValidity (o : OwnerState) : DataValidity :=
  if o.dataFaultCounter = 0 then DataValidity.ok else DataValidity.faulty

/-- State of one MetaDataPropagatingRegisterDecorator
(MetaDataPropagatingRegisterDecorator.h: members lastValidity and
the MetaDataPropagationFlagProvider flag isCircularInput). -/
structure PropagatorState where
  lastValidity : DataValidity := DataValidity.ok
  isCircularInput : Bool := false
deriving DecidableEq, Repr

/-- The modulus of the uint64 invalidity counters
(Application.h line 487: std atomic uint64). -/
def U64MOD : Nat := 2 ^ 64

/-- Application::circularNetworkInvalidityCounters (Application.h lines
483-487): map from circular network hash to an atomic uint64 counter.  A map
entry that was never touched reads as 0, so the map is modelled as a total
function. -/
structure AppCounters where
  counters : Nat → Nat

/-- Increment of one invalidity counter (operator ++ on the uint64 map entry,
MetaDataPropagatingRegisterDecorator.cc line 27), with uint64 wrap-around. -/
def AppCounters.increment (m : AppCounters) (h : Nat) : AppCounters :=
  { counters := Function.update m.counters h ((m.counters h + 1) % U64MOD) }

/-- Decrement of one invalidity counter (operator -- on the uint64 map entry,
MetaDataPropagatingRegisterDecorator.cc line 35), with uint64 wrap-around. -/
def AppCounters.decrement (m : AppCounters) (h : Nat) : AppCounters :=
  { counters := Function.update m.counters h ((m.counters h + (U64MOD - 1)) % U64MOD) }

/-- Inputs of one doPostRead call: the transfer type, whether the target has
the wait_for_new_data access mode flag, the version number of the transfer,
and the data validity delivered by the target (the value of the member
variable dataValidity after the base-class doPostRead). -/
structure PostReadInput where
  ttype : TransferType
  waitForNewData : Bool
  versionNumber : Nat
  dataValidity : DataValidity
deriving DecidableEq, Repr

/-- MetaDataPropagatingRegisterDecorator::doPostRead
(MetaDataPropagatingRegisterDecorator.cc lines 10-40): update the owning
module version number for push-mode genuine reads, then on a validity flip
update the module fault counter and, for external inputs of a circular
dependency network, the shared invalidity counter; finally record the new
validity in lastValidity. -/
def doPostRead (inp : PostReadInput) (p : PropagatorState) (o : OwnerState)
    (app : AppCounters) : PropagatorState × OwnerState × AppCounters :=
  -- update the version number (lines 14-16)
  let o₁ := if inp.waitForNewData && inp.ttype == TransferType.read then
              setCurrentVersionNumber o inp.versionNumber
            else o
  -- check if the data validity flag changed (lines 19-39)
  if inp.dataValidity != p.lastValidity then
    if inp.dataValidity == DataValidity.faulty then
      -- data validity changes to faulty (lines 20-28)
      let o₂ := incrementDataFaultCounter o₁
      let app₂ := if o₂.circularNetworkHash != 0 && !p.isCircularInput then
                    app.increment o₂.circularNetworkHash
                  else app
      ({ p with lastValidity := inp.dataValidity }, o₂, app₂)
    else
      -- data validity changed to OK (lines 30-36)
      let o₂ := decrementDataFaultCounter o₁
      let app₂ := if o₂.circularNetworkHash != 0 && !p.isCircularInput then
                    app.decrement o₂.circularNetworkHash
                  else app
      ({ p with lastValidity := inp.dataValidity }, o₂, app₂)
  else
    (p, o₁, app)

/-- MetaDataPropagatingRegisterDecorator::doPreWrite
(MetaDataPropagatingRegisterDecorator.cc lines 43-57): the validity written to
the target.  The buffer swap and the forwarded target preWrite move data only
and are not modelled.  The argument dv is the decorator member dataValidity
(faulty when the application manually set this write faulty). -/
def doPreWrite (dv : DataValidity) (o : OwnerState) : DataValidity :=
  if dv == DataValidity.faulty then DataValidity.faulty
  else getDataValidity o

/-! ### Run model: a system of decorated endpoints

A system holds a finite family of endpoint decorators (each bound to one
owning module by index), the modules, and the application-wide invalidity
counter map.  An event applies doPostRead to one endpoint; a run folds a list
of events.  This models any interleaving of post-read callbacks observed at
quiescent points. -/

/-- One decorated endpoint of the system: its decorator state and the index of
its owning module. -/
structure EndpointState where
  prop : PropagatorState
  ownerIdx : Nat
deriving Repr

/-- Global state: nEndpoints endpoint decorators (indices below nEndpoints),
the owning modules, and the invalidity counter map. -/
structure SystemState where
  nEndpoints : Nat
  endpoints : Nat → EndpointState
  owners : Nat → OwnerState
  app : AppCounters

/-- One post-read event: which endpoint performed the transfer and the
observed transfer data. -/
structure Event where
  idx : Nat
  inp : PostReadInput
deriving Repr

/-- Apply one post-read event to the system (an event naming no existing
endpoint changes nothing). -/
def SystemState.step (s : SystemState) (e : Event) : SystemState :=
  if e.idx < s.nEndpoints then
    let ep := s.endpoints e.idx
    let r := doPostRead e.inp ep.prop (s.owners ep.ownerIdx) s.app
    { s with
      endpoints := Function.update s.endpoints e.idx { ep with prop := r.1 }
      owners := Function.update s.owners ep.ownerIdx r.2.1
      app := r.2.2 }
  else s

/-- Fold a list of post-read events. -/
def SystemState.run (s : SystemState) (es : List Event) : SystemState :=
  es.foldl SystemState.step s

/-- Initial condition: every endpoint has last seen an ok validity, every
module fault counter is 0 and every invalidity counter is 0 (the state right
after construction, before any transfer). -/
def SystemState.initialState (s : SystemState) : Prop :=
  (∀ i, i < s.nEndpoints → (s.endpoints i).prop.lastValidity = DataValidity.ok) ∧
  (∀ o, (s.owners o).dataFaultCounter = 0) ∧
  (∀ h, s.app.counters h = 0)

/-- The number of endpoints of module oIdx whose last observed validity is
faulty. -/
def SystemState.faultyCount (s : SystemState) (oIdx : Nat) : Nat :=
  ((Finset.range s.nEndpoints).filter (fun i =>
    (s.endpoints i).ownerIdx = oIdx ∧
    (s.endpoints i).prop.lastValidity = DataValidity.faulty)).card

/-- The number of currently-faulty external (non-cycle-internal) inputs of the
circular dependency network with hash h. -/
def SystemState.externalFaultyCount (s : SystemState) (h : Nat) : Nat :=
  ((Finset.range s.nEndpoints).filter (fun i =>
    (s.owners (s.endpoints i).ownerIdx).circularNetworkHash = h ∧
    (s.endpoints i).prop.isCircularInput = false ∧
    (s.endpoints i).prop.lastValidity = DataValidity.faulty)).card

/-- First half of the propagation invariant: every module fault counter
equals the number of that module endpoints whose last observed validity is
faulty. -/
def SystemState.ownerInv (s : SystemState) : Prop :=
  ∀ oIdx, (s.owners oIdx).dataFaultCounter = s.faultyCount oIdx

/-- Second half of the propagation invariant: every circular-network
invalidity counter equals the number of currently-faulty external inputs of
that network. -/
def SystemState.appInv (s : SystemState) : Prop :=
  ∀ h, h ≠ 0 → s.app.counters h = s.externalFaultyCount h

/-! ## Concrete states used by witnesses and counterexamples -/

/-- A default propagator state (lastValidity ok, not cycle-internal). -/
def prop0 : PropagatorState := {}

/-- A default owner state (null version, zero fault counter, no cycle). -/
def owner0 : OwnerState := {}

/-- The all-zero invalidity counter map. -/
def zeroCounters : AppCounters := { counters := fun _ => 0 }

/-- A poll-fed network with an external trigger attached. -/
def c1Net : VariableNetwork :=
  { id := 0
    feeder := { type := NodeType.Device, mode := UpdateMode.poll,
                direction := VariableDirection.feeding, accessorId := 0,
                valueType := 0, unit := "", owner := some 0 }
    consumerList := [{ type := NodeType.Device, mode := UpdateMode.push,
                       direction := VariableDirection.consuming, accessorId := 1,
                       valueType := 0, unit := "", owner := some 0 }]
    valueType := 0
    engineeringUnit := ""
    hasExternalTrigger := true
    externalTrigger := some 1 }

/-- A push-fed network with one consumer. -/
def c2Net : VariableNetwork :=
  { id := 0
    feeder := { type := NodeType.Application, mode := UpdateMode.push,
                direction := VariableDirection.feeding, accessorId := 0,
                valueType := 0, unit := "", owner := some 0 }
    consumerList := [{ type := NodeType.ControlSystem, mode := UpdateMode.push,
                       direction := VariableDirection.consuming, accessorId := 1,
                       valueType := 0, unit := "", owner := some 0 }]
    valueType := 0
    engineeringUnit := ""
    hasExternalTrigger := false
    externalTrigger := none }

/-- A faulty push-read input. -/
def c3Inp : PostReadInput :=
  { ttype := TransferType.read, waitForNewData := true, versionNumber := 3,
    dataValidity := DataValidity.faulty }

/-- A one-endpoint system in the initial state. -/
def c3Sys : SystemState :=
  { nEndpoints := 1
    endpoints := fun _ => { prop := {}, ownerIdx := 0 }
    owners := fun _ => {}
    app := zeroCounters }

/-- The event delivering a faulty value to endpoint 0. -/
def c3Ev : Event := { idx := 0, inp := c3Inp }

/-- A faulty poll-read input. -/
def c4Inp : PostReadInput :=
  { ttype := TransferType.read, waitForNewData := false, versionNumber := 0,
    dataValidity := DataValidity.faulty }

/-- A one-endpoint system whose module belongs to the circular network with
hash 5, in the initial state. -/
def c4Sys : SystemState :=
  { nEndpoints := 1
    endpoints := fun _ => { prop := {}, ownerIdx := 0 }
    owners := fun _ => { circularNetworkHash := 5 }
    app := zeroCounters }

/-- The event delivering a faulty value to endpoint 0 of the cyclic system. -/
def c4Ev : Event := { idx := 0, inp := c4Inp }

/-- An ok push-read input carrying version number 7. -/
def c6Inp : PostReadInput :=
  { ttype := TransferType.read, waitForNewData := true, versionNumber := 7,
    dataValidity := DataValidity.ok }

/-- An empty network (no feeder, no consumers). -/
def c7Net : VariableNetwork := {}

/-- An unassigned feeding device node. -/
def c7Node : VariableNetworkNode :=
  { type := NodeType.Device, mode := UpdateMode.push,
    direction := VariableDirection.feeding, accessorId := 3,
    valueType := 2, unit := "V", owner := none }

/-- A network whose feeding node is Application-category but poll-mode, with
one poll-mode consumer and no external trigger. -/
def c8Network : VariableNetwork :=
  { id := 0
    feeder := { type := NodeType.Application, mode := UpdateMode.poll,
                direction := VariableDirection.feeding, accessorId := 0,
                valueType := 0, unit := "", owner := some 0 }
    consumerList := [{ type := NodeType.ControlSystem, mode := UpdateMode.poll,
                       direction := VariableDirection.consuming, accessorId := 1,
                       valueType := 0, unit := "", owner := some 0 }]
    valueType := 0
    engineeringUnit := ""
    hasExternalTrigger := false
    externalTrigger := none }

/-- An accessor that is already a consumer of c9Net. -/
def c9Acc : AccessorBase :=
  { id := 5, isFeeding := false, mode := UpdateMode.push, valueType := 0, unit := "" }

/-- A network having the application accessor c9Acc among its consumers. -/
def c9Net : VariableNetwork :=
  { id := 0
    feeder := {}
    consumerList := [{ type := NodeType.Application, mode := UpdateMode.push,
                       direction := VariableDirection.consuming, accessorId := 5,
                       valueType := 0, unit := "", owner := some 0 }]
    valueType := 0
    engineeringUnit := ""
    hasExternalTrigger := false
    externalTrigger := none }

/-- A node already owned by c9Net. -/
def c9Node : VariableNetworkNode :=
  { type := NodeType.Device, mode := UpdateMode.poll,
    direction := VariableDirection.consuming, accessorId := 9,
    valueType := 0, unit := "", owner := some 0 }

/-- A poll-fed network with an external trigger attached (for the
getExternalTrigger witness). -/
def c10Net : VariableNetwork :=
  { id := 2
    feeder := { type := NodeType.ControlSystem, mode := UpdateMode.poll,
                direction := VariableDirection.feeding, accessorId := 0,
                valueType := 0, unit := "", owner := some 2 }
    consumerList := [{ type := NodeType.Device, mode := UpdateMode.push,
                       direction := VariableDirection.consuming, accessorId := 1,
                       valueType := 0, unit := "", owner := some 2 }]
    valueType := 0
    engineeringUnit := ""
    hasExternalTrigger := true
    externalTrigger := some 7 }

/-! ## Helper lemmas -/

theorem card_filter_split (n i : Nat) (hi : i < n) (P : Nat → Prop) [DecidablePred P] :
    ((Finset.range n).filter P).card
      = (if P i then 1 else 0) + (((Finset.range n).erase i).filter P).card := by
  rw [Finset.card_filter, Finset.card_filter,
    ← Finset.add_sum_erase (Finset.range n) (fun a => if P a then 1 else 0)
        (Finset.mem_range.mpr hi)]

theorem filter_erase_congr (n i : Nat) (P Q : Nat → Prop) [DecidablePred P] [DecidablePred Q]
    (hAgree : ∀ j, j ≠ i → (P j ↔ Q j)) :
    ((Finset.range n).erase i).filter P = ((Finset.range n).erase i).filter Q := by
  apply Finset.filter_congr
  intro x hx
  exact hAgree x (Finset.mem_erase.mp hx).1

theorem card_filter_congr_at (n i : Nat) (hi : i < n) (P Q : Nat → Prop)
    [DecidablePred P] [DecidablePred Q]
    (hAgree : ∀ j, j ≠ i → (P j ↔ Q j)) (hPQ : P i ↔ Q i) :
    ((Finset.range n).filter Q).card = ((Finset.range n).filter P).card := by
  rw [card_filter_split n i hi P, card_filter_split n i hi Q,
    filter_erase_congr n i P Q hAgree]
  by_cases h : P i
  · rw [if_pos h, if_pos (hPQ.mp h)]
  · rw [if_neg h, if_neg (fun hq => h (hPQ.mpr hq))]

theorem card_filter_succ_at (n i : Nat) (hi : i < n) (P Q : Nat → Prop)
    [DecidablePred P] [DecidablePred Q]
    (hAgree : ∀ j, j ≠ i → (P j ↔ Q j)) (hP : ¬ P i) (hQ : Q i) :
    ((Finset.range n).filter Q).card = ((Finset.range n).filter P).card + 1 := by
  have hsplitP := card_filter_split n i hi P
  have hsplitQ := card_filter_split n i hi Q
  rw [filter_erase_congr n i P Q hAgree, if_neg hP] at hsplitP
  rw [if_pos hQ] at hsplitQ
  omega

theorem card_filter_lt_u64 (n : Nat) (hN : n < U64MOD) (Q : Nat → Prop)
    [DecidablePred Q] : ((Finset.range n).filter Q).card < U64MOD :=
  lt_of_le_of_lt ((Finset.card_filter_le _ _).trans (Finset.card_range _).le) hN

theorem u64_incr (a b : Nat) (hb : b < U64MOD) (hab : b = a + 1) :
    (a + 1) % U64MOD = b := by
  have hM : U64MOD = 18446744073709551616 := by norm_num [U64MOD]
  rw [hM] at hb ⊢
  omega

theorem u64_decr (a b : Nat) (hb : b < U64MOD) (hab : a = b + 1) :
    (a + (U64MOD - 1)) % U64MOD = b := by
  have hM : U64MOD = 18446744073709551616 := by norm_num [U64MOD]
  rw [hM] at hb ⊢
  omega

theorem doPostRead_hash (inp : PostReadInput) (p : PropagatorState) (o : OwnerState)
    (app : AppCounters) :
    ((doPostRead inp p o app).2.1).circularNetworkHash = o.circularNetworkHash := by
  unfold doPostRead
  simp only [incrementDataFaultCounter, decrementDataFaultCounter, setCurrentVersionNumber]
  repeat' split
  all_goals rfl

theorem doPostRead_isCircular (inp : PostReadInput) (p : PropagatorState) (o : OwnerState)
    (app : AppCounters) :
    ((doPostRead inp p o app).1).isCircularInput = p.isCircularInput := by
  unfold doPostRead
  simp only [incrementDataFaultCounter, decrementDataFaultCounter, setCurrentVersionNumber]
  repeat' split
  all_goals rfl

theorem doPostRead_lastValidity (inp : PostReadInput) (p : PropagatorState) (o : OwnerState)
    (app : AppCounters) :
    ((doPostRead inp p o app).1).lastValidity = inp.dataValidity := by
  unfold doPostRead
  simp only [incrementDataFaultCounter, decrementDataFaultCounter, setCurrentVersionNumber]
  repeat' split
  all_goals simp_all [bne_iff_ne]

theorem doPostRead_counter_incr (inp : PostReadInput) (p : PropagatorState) (o : OwnerState)
    (app : AppCounters)
    (hne : inp.dataValidity ≠ p.lastValidity) (hf : inp.dataValidity = DataValidity.faulty) :
    ((doPostRead inp p o app).2.1).dataFaultCounter = o.dataFaultCounter + 1 := by
  unfold doPostRead
  simp only [incrementDataFaultCounter, decrementDataFaultCounter, setCurrentVersionNumber]
  repeat' split
  all_goals simp_all [bne_iff_ne]

theorem doPostRead_counter_decr (inp : PostReadInput) (p : PropagatorState) (o : OwnerState)
    (app : AppCounters)
    (hne : inp.dataValidity ≠ p.lastValidity) (hf : inp.dataValidity = DataValidity.ok) :
    ((doPostRead inp p o app).2.1).dataFaultCounter = o.dataFaultCounter - 1 := by
  unfold doPostRead
  simp only [incrementDataFaultCounter, decrementDataFaultCounter, setCurrentVersionNumber]
  repeat' split
  all_goals simp_all [bne_iff_ne]

theorem doPostRead_counter_same (inp : PostReadInput) (p : PropagatorState) (o : OwnerState)
    (app : AppCounters) (heq : inp.dataValidity = p.lastValidity) :
    ((doPostRead inp p o app).2.1).dataFaultCounter = o.dataFaultCounter := by
  unfold doPostRead
  simp only [incrementDataFaultCounter, decrementDataFaultCounter, setCurrentVersionNumber]
  repeat' split
  all_goals simp_all [bne_iff_ne]

theorem doPostRead_app_same (inp : PostReadInput) (p : PropagatorState) (o : OwnerState)
    (app : AppCounters) (heq : inp.dataValidity = p.lastValidity) :
    (doPostRead inp p o app).2.2 = app := by
  unfold doPostRead
  simp only [incrementDataFaultCounter, decrementDataFaultCounter, setCurrentVersionNumber]
  repeat' split
  all_goals simp_all [bne_iff_ne]

theorem doPostRead_app_internal (inp : PostReadInput) (p : PropagatorState) (o : OwnerState)
    (app : AppCounters) (hint : p.isCircularInput = true) :
    (doPostRead inp p o app).2.2 = app := by
  unfold doPostRead
  simp only [incrementDataFaultCounter, decrementDataFaultCounter, setCurrentVersionNumber]
  repeat' split
  all_goals simp_all [bne_iff_ne]

theorem doPostRead_app_hash0 (inp : PostReadInput) (p : PropagatorState) (o : OwnerState)
    (app : AppCounters) (h0 : o.circularNetworkHash = 0) :
    (doPostRead inp p o app).2.2 = app := by
  unfold doPostRead
  simp only [incrementDataFaultCounter, decrementDataFaultCounter, setCurrentVersionNumber]
  repeat' split
  all_goals simp_all [bne_iff_ne]

theorem doPostRead_app_incr (inp : PostReadInput) (p : PropagatorState) (o : OwnerState)
    (app : AppCounters)
    (hne : inp.dataValidity ≠ p.lastValidity) (hf : inp.dataValidity = DataValidity.faulty)
    (hh : o.circularNetworkHash ≠ 0) (hext : p.isCircularInput = false) :
    (doPostRead inp p o app).2.2 = app.increment o.circularNetworkHash := by
  unfold doPostRead
  simp only [incrementDataFaultCounter, decrementDataFaultCounter, setCurrentVersionNumber]
  repeat' split
  all_goals simp_all [bne_iff_ne]

theorem doPostRead_app_decr (inp : PostReadInput) (p : PropagatorState) (o : OwnerState)
    (app : AppCounters)
    (hne : inp.dataValidity ≠ p.lastValidity) (hf : inp.dataValidity = DataValidity.ok)
    (hh : o.circularNetworkHash ≠ 0) (hext : p.isCircularInput = false) :
    (doPostRead inp p o app).2.2 = app.decrement o.circularNetworkHash := by
  unfold doPostRead
  simp only [incrementDataFaultCounter, decrementDataFaultCounter, setCurrentVersionNumber]
  repeat' split
  all_goals simp_all [bne_iff_ne]

theorem doPostRead_version (inp : PostReadInput) (p : PropagatorState) (o : OwnerState)
    (app : AppCounters) :
    ((doPostRead inp p o app).2.1).currentVersionNumber =
      if (inp.waitForNewData && inp.ttype == TransferType.read) = true then
        (setCurrentVersionNumber o inp.versionNumber).currentVersionNumber
      else o.currentVersionNumber := by
  unfold doPostRead
  simp only [incrementDataFaultCounter, decrementDataFaultCounter]
  repeat' split
  all_goals simp_all

theorem update_prop_ownerIdx (f : Nat → EndpointState) (i j : Nat) (pr : PropagatorState) :
    ((Function.update f i { prop := pr, ownerIdx := (f i).ownerIdx }) j).ownerIdx
      = (f j).ownerIdx := by
  by_cases hj : j = i
  · subst hj; rw [Function.update_same]
  · rw [Function.update_noteq hj]

theorem update_prop_lastValidity (f : Nat → EndpointState) (i j : Nat)
    (inp : PostReadInput) (o : OwnerState) (app : AppCounters) :
    ((Function.update f i
        { prop := (doPostRead inp (f i).prop o app).1,
          ownerIdx := (f i).ownerIdx }) j).prop.lastValidity
      = if j = i then inp.dataValidity else (f j).prop.lastValidity := by
  by_cases hj : j = i
  · subst hj
    rw [Function.update_same, if_pos rfl]
    exact doPostRead_lastValidity inp (f j).prop o app
  · rw [Function.update_noteq hj, if_neg hj]

theorem update_prop_isCircular (f : Nat → EndpointState) (i j : Nat)
    (inp : PostReadInput) (o : OwnerState) (app : AppCounters) :
    ((Function.update f i
        { prop := (doPostRead inp (f i).prop o app).1,
          ownerIdx := (f i).ownerIdx }) j).prop.isCircularInput
      = (f j).prop.isCircularInput := by
  by_cases hj : j = i
  · subst hj
    rw [Function.update_same]
    exact doPostRead_isCircular inp (f j).prop o app
  · rw [Function.update_noteq hj]

theorem update_owners_hash (g : Nat → OwnerState) (oI oJ : Nat)
    (inp : PostReadInput) (p : PropagatorState) (app : AppCounters) :
    ((Function.update g oI (doPostRead inp p (g oI) app).2.1) oJ).circularNetworkHash
      = (g oJ).circularNetworkHash := by
  by_cases hj : oJ = oI
  · subst hj
    rw [Function.update_same]
    exact doPostRead_hash inp p (g oJ) app
  · rw [Function.update_noteq hj]

theorem step_nEndpoints (s : SystemState) (e : Event) :
    (s.step e).nEndpoints = s.nEndpoints := by
  unfold SystemState.step
  split <;> rfl

theorem initial_ownerInv (s : SystemState) (hinit : s.initialState) : s.ownerInv := by
  obtain ⟨hlast, hcnt, -⟩ := hinit
  intro oIdx
  rw [hcnt oIdx]
  unfold SystemState.faultyCount
  symm
  rw [Finset.card_eq_zero, Finset.filter_eq_empty_iff]
  intro i hi
  rw [hlast i (Finset.mem_range.mp hi)]
  simp

theorem initial_appInv (s : SystemState) (hinit : s.initialState) : s.appInv := by
  obtain ⟨hlast, -, happ⟩ := hinit
  intro h hne
  rw [happ h]
  unfold SystemState.externalFaultyCount
  symm
  rw [Finset.card_eq_zero, Finset.filter_eq_empty_iff]
  intro i hi
  rw [hlast i (Finset.mem_range.mp hi)]
  simp

theorem step_ownerInv (s : SystemState) (e : Event) (hOwn : s.ownerInv) :
    (s.step e).ownerInv := by
  unfold SystemState.step
  split
  next hlt =>
    intro oIdx
    dsimp only
    simp only [SystemState.faultyCount]
    simp only [update_prop_ownerIdx, update_prop_lastValidity]
    by_cases hoi : (s.endpoints e.idx).ownerIdx = oIdx
    · subst hoi
      rw [Function.update_same]
      by_cases hval : e.inp.dataValidity = (s.endpoints e.idx).prop.lastValidity
      · rw [doPostRead_counter_same _ _ _ _ hval, hOwn]
        unfold SystemState.faultyCount
        refine (card_filter_congr_at s.nEndpoints e.idx hlt _ _ ?_ ?_).symm
        · intro j hj
          rw [if_neg hj]
        · simp [hval]
      · cases hdv : e.inp.dataValidity with
        | faulty =>
            rw [doPostRead_counter_incr _ _ _ _ hval hdv, hOwn]
            unfold SystemState.faultyCount
            refine (card_filter_succ_at s.nEndpoints e.idx hlt _ _ ?_ ?_ ?_).symm
            · intro j hj
              rw [if_neg hj]
            · rintro ⟨-, hl⟩
              exact hval (hdv.trans hl.symm)
            · refine ⟨rfl, ?_⟩
              rw [if_pos rfl]
        | ok =>
            rw [doPostRead_counter_decr _ _ _ _ hval hdv, hOwn]
            unfold SystemState.faultyCount
            refine Nat.sub_eq_of_eq_add ?_
            refine card_filter_succ_at s.nEndpoints e.idx hlt _ _ ?_ ?_ ?_
            · intro j hj
              rw [if_neg hj]
            · rintro ⟨-, hl⟩
              rw [if_pos rfl] at hl
              exact DataValidity.noConfusion hl
            · refine ⟨rfl, ?_⟩
              cases hep : (s.endpoints e.idx).prop.lastValidity with
              | ok => exact absurd (hdv.trans hep.symm) hval
              | faulty => rfl
    · rw [Function.update_noteq (Ne.symm hoi), hOwn oIdx]
      unfold SystemState.faultyCount
      refine (card_filter_congr_at s.nEndpoints e.idx hlt _ _ ?_ ?_).symm
      · intro j hj
        rw [if_neg hj]
      · exact ⟨fun hc => absurd hc.1 hoi, fun hc => absurd hc.1 hoi⟩
  next => exact hOwn

theorem step_appInv (s : SystemState) (e : Event) (hN : s.nEndpoints < U64MOD)
    (hApp : s.appInv) : (s.step e).appInv := by
  unfold SystemState.step
  split
  next hlt =>
    intro h hne
    dsimp only
    simp only [SystemState.externalFaultyCount]
    simp only [update_prop_ownerIdx, update_prop_lastValidity, update_prop_isCircular,
      update_owners_hash]
    by_cases hval : e.inp.dataValidity = (s.endpoints e.idx).prop.lastValidity
    · rw [doPostRead_app_same _ _ _ _ hval, hApp h hne]
      unfold SystemState.externalFaultyCount
      refine (card_filter_congr_at s.nEndpoints e.idx hlt _ _ ?_ ?_).symm
      · intro j hj
        rw [if_neg hj]
      · simp [hval]
    · by_cases hint : (s.endpoints e.idx).prop.isCircularInput = true
      · rw [doPostRead_app_internal _ _ _ _ hint, hApp h hne]
        unfold SystemState.externalFaultyCount
        refine (card_filter_congr_at s.nEndpoints e.idx hlt _ _ ?_ ?_).symm
        · intro j hj
          rw [if_neg hj]
        · simp [hint]
      · have hext : (s.endpoints e.idx).prop.isCircularInput = false := by
          cases hc : (s.endpoints e.idx).prop.isCircularInput
          · rfl
          · exact absurd hc hint
        by_cases hh0 : (s.owners (s.endpoints e.idx).ownerIdx).circularNetworkHash = 0
        · rw [doPostRead_app_hash0 _ _ _ _ hh0, hApp h hne]
          unfold SystemState.externalFaultyCount
          refine (card_filter_congr_at s.nEndpoints e.idx hlt _ _ ?_ ?_).symm
          · intro j hj
            rw [if_neg hj]
          · exact ⟨fun hc => absurd (hc.1.symm.trans hh0) hne,
              fun hc => absurd (hc.1.symm.trans hh0) hne⟩
        · cases hdv : e.inp.dataValidity with
          | faulty =>
              rw [doPostRead_app_incr _ _ _ _ hval hdv hh0 hext]
              unfold AppCounters.increment
              dsimp only
              by_cases hhh : h = (s.owners (s.endpoints e.idx).ownerIdx).circularNetworkHash
              · rw [hhh, Function.update_same,
                  hApp _ hh0]
                unfold SystemState.externalFaultyCount
                refine u64_incr _ _ (card_filter_lt_u64 s.nEndpoints hN _) ?_
                refine card_filter_succ_at s.nEndpoints e.idx hlt _ _ ?_ ?_ ?_
                · intro j hj
                  rw [if_neg hj]
                · rintro ⟨-, -, hl⟩
                  exact hval (hdv.trans hl.symm)
                · refine ⟨rfl, hext, ?_⟩
                  rw [if_pos rfl]
              · rw [Function.update_noteq hhh, hApp h hne]
                unfold SystemState.externalFaultyCount
                refine (card_filter_congr_at s.nEndpoints e.idx hlt _ _ ?_ ?_).symm
                · intro j hj
                  rw [if_neg hj]
                · exact ⟨fun hc => absurd hc.1.symm hhh, fun hc => absurd hc.1.symm hhh⟩
          | ok =>
              rw [doPostRead_app_decr _ _ _ _ hval hdv hh0 hext]
              unfold AppCounters.decrement
              dsimp only
              by_cases hhh : h = (s.owners (s.endpoints e.idx).ownerIdx).circularNetworkHash
              · rw [hhh, Function.update_same,
                  hApp _ hh0]
                unfold SystemState.externalFaultyCount
                refine u64_decr _ _ (card_filter_lt_u64 s.nEndpoints hN _) ?_
                refine card_filter_succ_at s.nEndpoints e.idx hlt _ _ ?_ ?_ ?_
                · intro j hj
                  rw [if_neg hj]
                · rintro ⟨-, -, hl⟩
                  rw [if_pos rfl] at hl
                  exact DataValidity.noConfusion hl
                · refine ⟨rfl, hext, ?_⟩
                  cases hep : (s.endpoints e.idx).prop.lastValidity with
                  | ok => exact absurd (hdv.trans hep.symm) hval
                  | faulty => rfl
              · rw [Function.update_noteq hhh, hApp h hne]
                unfold SystemState.externalFaultyCount
                refine (card_filter_congr_at s.nEndpoints e.idx hlt _ _ ?_ ?_).symm
                · intro j hj
                  rw [if_neg hj]
                · exact ⟨fun hc => absurd hc.1.symm hhh, fun hc => absurd hc.1.symm hhh⟩
  next => exact hApp

theorem run_ownerInv (s : SystemState) (es : List Event) (hOwn : s.ownerInv) :
    (s.run es).ownerInv := by
  induction es generalizing s with
  | nil => exact hOwn
  | cons e es ih => exact ih (s.step e) (step_ownerInv s e hOwn)

theorem run_appInv (s : SystemState) (es : List Event) (hN : s.nEndpoints < U64MOD)
    (hApp : s.appInv) : (s.run es).appInv := by
  induction es generalizing s with
  | nil => exact hApp
  | cons e es ih =>
      exact ih (s.step e) (by rw [step_nEndpoints s e]; exact hN) (step_appInv s e hN hApp)

theorem getDataValidity_ok_iff (o : OwnerState) :
    getDataValidity o = DataValidity.ok ↔ o.dataFaultCounter = 0 := by
  unfold getDataValidity
  split
  · simp_all
  · simp_all

theorem getTriggerType_not_none (n : VariableNetwork) :
    n.getTriggerType ≠ Except.ok TriggerType.none := by
  unfold VariableNetwork.getTriggerType
  dsimp only
  repeat' split
  all_goals simp

theorem getTriggerType_error_form (n : VariableNetwork) (e : AppException)
    (h : n.getTriggerType = Except.error e) :
    ∃ msg, e = AppException.illegalVariableNetwork msg := by
  unfold VariableNetwork.getTriggerType at h
  dsimp only at h
  split at h
  · split at h
    · exact ⟨_, (Except.error.inj h).symm⟩
    · exact Except.noConfusion h
  · split at h
    · exact Except.noConfusion h
    · split at h
      · exact ⟨_, (Except.error.inj h).symm⟩
      · exact Except.noConfusion h

/-! ## Claim theorems -/

/-- C1: for every variable network with a feeder, getTriggerType resolves to
exactly one of external / feeder / pollingConsumer: external when an external
trigger network is attached and the feeder is not push-mode; feeder when no
external trigger is attached and the feeder is push-mode; pollingConsumer when
no external trigger is attached, the feeder is poll-mode and exactly one
consuming node is poll-mode.  It throws IllegalNetwork when an external
trigger is attached to a push-mode feeder, and when the feeder is poll-mode,
no external trigger is attached and the number of poll-mode consumers is not
exactly one. -/
theorem getTriggerType_cases (n : VariableNetwork) (hfeed : n.hasFeedingNode = true) :
    (n.hasExternalTrigger = true → n.feeder.mode ≠ UpdateMode.push →
      n.getTriggerType = Except.ok TriggerType.external) ∧
    (n.hasExternalTrigger = false → n.feeder.mode = UpdateMode.push →
      n.getTriggerType = Except.ok TriggerType.feeder) ∧
    (n.hasExternalTrigger = false → n.feeder.mode = UpdateMode.poll →
      n.consumerList.countP (fun c => c.mode == UpdateMode.poll) = 1 →
      n.getTriggerType = Except.ok TriggerType.pollingConsumer) ∧
    (n.hasExternalTrigger = true → n.feeder.mode = UpdateMode.push →
      ∃ msg, n.getTriggerType = Except.error (AppException.illegalVariableNetwork msg)) ∧
    (n.hasExternalTrigger = false → n.feeder.mode = UpdateMode.poll →
      n.consumerList.countP (fun c => c.mode == UpdateMode.poll) ≠ 1 →
      ∃ msg, n.getTriggerType = Except.error (AppException.illegalVariableNetwork msg)) ∧
    ((∃ t, n.getTriggerType = Except.ok t ∧
        (t = TriggerType.external ∨ t = TriggerType.feeder ∨ t = TriggerType.pollingConsumer)) ∨
      (∃ msg, n.getTriggerType = Except.error (AppException.illegalVariableNetwork msg))) := by
  refine ⟨?_, ?_, ?_, ?_, ?_, ?_⟩
  · intro h1 h2
    simp [VariableNetwork.getTriggerType, h1, beq_iff_eq, h2]
  · intro h1 h2
    simp [VariableNetwork.getTriggerType, h1, beq_iff_eq, h2]
  · intro h1 h2 h3
    simp [VariableNetwork.getTriggerType, h1, beq_iff_eq, h2, h3]
  · intro h1 h2
    exact ⟨"Providing an external trigger to a variable network which is fed by a pushing variable is not allowed.",
      by simp [VariableNetwork.getTriggerType, h1, beq_iff_eq, h2]⟩
  · intro h1 h2 h3
    exact ⟨"In a network with a poll-type feeder and no external trigger, there must be exactly one polling consumer.",
      by simp [VariableNetwork.getTriggerType, h1, beq_iff_eq, h2, bne_iff_ne, h3]⟩
  · by_cases h1 : n.hasExternalTrigger = true
    · by_cases h2 : n.feeder.mode = UpdateMode.push
      · exact Or.inr
          ⟨"Providing an external trigger to a variable network which is fed by a pushing variable is not allowed.",
            by simp [VariableNetwork.getTriggerType, h1, beq_iff_eq, h2]⟩
      · exact Or.inl ⟨TriggerType.external,
          by simp [VariableNetwork.getTriggerType, h1, beq_iff_eq, h2], Or.inl rfl⟩
    · have h1f : n.hasExternalTrigger = false := by simpa using h1
      by_cases h2 : n.feeder.mode = UpdateMode.push
      · exact Or.inl ⟨TriggerType.feeder,
          by simp [VariableNetwork.getTriggerType, h1f, beq_iff_eq, h2], Or.inr (Or.inl rfl)⟩
      · by_cases h3 : n.consumerList.countP (fun c => c.mode == UpdateMode.poll) = 1
        · exact Or.inl ⟨TriggerType.pollingConsumer,
            by simp [VariableNetwork.getTriggerType, h1f, beq_iff_eq, h2, h3],
            Or.inr (Or.inr rfl)⟩
        · exact Or.inr
            ⟨"In a network with a poll-type feeder and no external trigger, there must be exactly one polling consumer.",
              by simp [VariableNetwork.getTriggerType, h1f, beq_iff_eq, h2, bne_iff_ne, h3]⟩

/-- C1 witness: on a concrete poll-fed network with an external trigger the
inference returns the external trigger type. -/
theorem getTriggerType_cases_witness :
    c1Net.getTriggerType = Except.ok TriggerType.external :=
  (getTriggerType_cases c1Net (by decide)).1 rfl (by decide)

/-- C2: check() returns without error iff the network has a feeding node, at
least one consuming node, and getTriggerType yields one of feeder /
pollingConsumer / external without raising; in every other case check throws
IllegalNetwork.  (The network holds a single feeder slot, so having a feeding
node is the same as having exactly one.) -/
theorem check_iff_valid (n : VariableNetwork) :
    (n.check = Except.ok () ↔
      (n.hasFeedingNode = true ∧ 0 < n.countConsumingNodes ∧
        ∃ t, n.getTriggerType = Except.ok t ∧
          (t = TriggerType.feeder ∨ t = TriggerType.pollingConsumer ∨
            t = TriggerType.external))) ∧
    (n.check ≠ Except.ok () →
      ∃ msg, n.check = Except.error (AppException.illegalVariableNetwork msg)) := by
  constructor
  · constructor
    · intro hok
      unfold VariableNetwork.check at hok
      by_cases hc : n.countConsumingNodes = 0
      · simp [beq_iff_eq, hc] at hok
      · by_cases hf : n.hasFeedingNode = true
        · refine ⟨hf, Nat.pos_of_ne_zero hc, ?_⟩
          simp only [beq_iff_eq, hc, if_neg, hf, Bool.not_true, if_false] at hok
          cases hgt : n.getTriggerType with
          | error e => simp [hgt] at hok
          | ok t =>
              refine ⟨t, rfl, ?_⟩
              cases t with
              | feeder => exact Or.inl rfl
              | pollingConsumer => exact Or.inr (Or.inl rfl)
              | external => exact Or.inr (Or.inr rfl)
              | none => exact absurd hgt (getTriggerType_not_none n)
        · have hf2 : n.hasFeedingNode = false := by simpa using hf
          simp [beq_iff_eq, hc, hf2] at hok
    · rintro ⟨hf, hc, t, hgt, -⟩
      have hc0 : ¬ n.countConsumingNodes = 0 := by omega
      unfold VariableNetwork.check
      simp [beq_iff_eq, hc0, hf, hgt]
  · intro hne
    by_cases hc : n.countConsumingNodes = 0
    · exact ⟨"Illegal variable network found: no consuming nodes connected!",
        by unfold VariableNetwork.check; simp [beq_iff_eq, hc]⟩
    · by_cases hf : n.hasFeedingNode = true
      · cases hgt : n.getTriggerType with
        | error e =>
            obtain ⟨msg, hmsg⟩ := getTriggerType_error_form n e hgt
            refine ⟨msg, ?_⟩
            unfold VariableNetwork.check
            simp [beq_iff_eq, hc, hf, hgt, hmsg]
        | ok t =>
            exact absurd (by unfold VariableNetwork.check; simp [beq_iff_eq, hc, hf, hgt]) hne
      · have hf2 : n.hasFeedingNode = false := by simpa using hf
        exact ⟨"Illegal variable network found: no feeding node connected!",
          by unfold VariableNetwork.check; simp [beq_iff_eq, hc, hf2]⟩

/-- C2 witness: a concrete push-fed network with one consumer passes check. -/
theorem check_iff_valid_witness : c2Net.check = Except.ok () :=
  (check_iff_valid c2Net).1.mpr ⟨by decide, by decide,
    TriggerType.feeder, rfl, Or.inl rfl⟩

/-- C7: addNode on an unassigned node: a feeding node is rejected with
IllegalNetwork when the network already has a feeder, leaving feeder, value
type, unit and consumer list unchanged; a feeding node becomes the feeder of a
feederless network, setting the network value type and engineering unit from
the node; a consuming node is appended to the consumer list leaving value type
and unit unchanged. -/
theorem addNode_spec (n : VariableNetwork) (a : VariableNetworkNode)
    (hun : a.owner = none) :
    (a.direction = VariableDirection.feeding → n.hasFeedingNode = true →
      n.addNode a =
        { error := some (AppException.illegalVariableNetwork "Trying to add a feeding accessor to a network already having a feeding accessor.")
          net := n }) ∧
    (a.direction = VariableDirection.feeding → n.hasFeedingNode = false →
      n.addNode a =
        { error := none
          net := { n with
                   feeder := { a with owner := some n.id }
                   valueType := a.valueType
                   engineeringUnit := a.unit } }) ∧
    (a.direction = VariableDirection.consuming →
      n.addNode a =
        { error := none
          net := { n with
                   consumerList := n.consumerList ++ [{ a with owner := some n.id }] } }) := by
  refine ⟨?_, ?_, ?_⟩
  · intro hdir hfeed
    unfold VariableNetwork.addNode
    simp [hun, beq_iff_eq, hdir, hfeed]
  · intro hdir hfeed
    unfold VariableNetwork.addNode
    simp [hun, beq_iff_eq, hdir, hfeed]
  · intro hdir
    unfold VariableNetwork.addNode
    simp [hun, beq_iff_eq, hdir]

/-- C7 witness: adding an unassigned feeding node to an empty network installs
it as feeder and copies its value type and unit. -/
theorem addNode_spec_witness :
    c7Net.addNode c7Node =
      { error := none
        net := { c7Net with
                 feeder := { c7Node with owner := some c7Net.id }
                 valueType := c7Node.valueType
                 engineeringUnit := c7Node.unit } } :=
  (addNode_spec c7Net c7Node rfl).2.1 rfl (by decide)

/-- C8 counterexample: a concrete network whose feeding node is
Application-category but poll-mode on which check() returns without raising:
the claim that check fails with IllegalNetwork for such networks is false on
the code, which only asserts the push-mode requirement. -/
theorem check_appPollFeeder_counterexample :
    c8Network.feeder.type = NodeType.Application ∧
    c8Network.feeder.mode = UpdateMode.poll ∧
    c8Network.check = Except.ok () :=
  ⟨rfl, rfl, rfl⟩

/-- C8 amended: check() does not reject a poll-mode Application-category
feeder with IllegalNetwork; invariant 3 is enforced only by a debug-build
assert (VariableNetwork.cc lines 300-302), so whenever the remaining checks
pass (at least one consumer, feeding node present, trigger inference succeeds)
check() returns cleanly even though the feeder violates invariant 3. -/
theorem check_appPollFeeder_passes (n : VariableNetwork)
    (htype : n.feeder.type = NodeType.Application)
    (hmode : n.feeder.mode = UpdateMode.poll)
    (hcons : 0 < n.countConsumingNodes)
    (hnotrig : n.hasExternalTrigger = false)
    (hpoll : n.consumerList.countP (fun c => c.mode == UpdateMode.poll) = 1) :
    n.check = Except.ok () := by
  have hgt : n.getTriggerType = Except.ok TriggerType.pollingConsumer := by
    simp [VariableNetwork.getTriggerType, hnotrig, beq_iff_eq, hmode, hpoll]
  have hc0 : ¬ n.countConsumingNodes = 0 := by omega
  have hf : n.hasFeedingNode = true := by
    unfold VariableNetwork.hasFeedingNode
    simp [htype]
  unfold VariableNetwork.check
  simp [beq_iff_eq, hc0, hf, hgt]

/-- C8 witness for the amended claim at the concrete network. -/
theorem check_appPollFeeder_passes_witness : c8Network.check = Except.ok () :=
  check_appPollFeeder_passes c8Network rfl rfl (by decide) rfl (by decide)

/-- C9: addAppNode is idempotent: called with an accessor that is already a
node of the network (feeder or consumer) it returns without error and leaves
feeder, consumer list, value type and engineering unit unchanged; likewise
addNode with a node already owned by this network is a no-op. -/
theorem addAppNode_idempotent (n : VariableNetwork) (a : AccessorBase)
    (b : VariableNetworkNode) (ha : n.hasAppNode a.id none = true)
    (hb : b.owner = some n.id) :
    n.addAppNode a = { error := none, net := n } ∧
    n.addNode b = { error := none, net := n } := by
  constructor
  · unfold VariableNetwork.addAppNode
    simp [ha]
  · unfold VariableNetwork.addNode
    simp [hb]

/-- C9 witness: re-adding an accessor that is already a consumer leaves the
concrete network unchanged. -/
theorem addAppNode_idempotent_witness :
    c9Net.addAppNode c9Acc = { error := none, net := c9Net } :=
  (addAppNode_idempotent c9Net c9Acc c9Node (by decide) rfl).1

/-- C10: getExternalTrigger propagates IllegalNetwork raised by the
trigger-type inference, throws illegalParameter whenever the inferred trigger
type is not external, and when the trigger type is external returns the
attached trigger network together with the unmodified network state. -/
theorem getExternalTrigger_spec (n : VariableNetwork) :
    (∀ e, n.getTriggerType = Except.error e →
      n.getExternalTrigger = Except.error e) ∧
    (∀ t, n.getTriggerType = Except.ok t → t ≠ TriggerType.external →
      n.getExternalTrigger = Except.error (AppException.illegalParameter
        "VariableNetwork::getExternalTrigger() may only be called if the trigger type is external.")) ∧
    (n.getTriggerType = Except.ok TriggerType.external →
      n.getExternalTrigger = Except.ok (n.externalTrigger, n)) := by
  refine ⟨?_, ?_, ?_⟩
  · intro e hgt
    unfold VariableNetwork.getExternalTrigger
    rw [hgt]
  · intro t hgt hne
    unfold VariableNetwork.getExternalTrigger
    rw [hgt]
    simp [bne_iff_ne, hne]
  · intro hgt
    unfold VariableNetwork.getExternalTrigger
    rw [hgt]
    simp

/-- C10 witness: on a concrete externally triggered network the attached
trigger network is returned and the network state is unchanged. -/
theorem getExternalTrigger_spec_witness :
    c10Net.getExternalTrigger = Except.ok (c10Net.externalTrigger, c10Net) :=
  (getExternalTrigger_spec c10Net).2.2 rfl

/-- C3: the post-read handler increments the owning module fault counter on an
ok-to-faulty validity flip, decrements it on a faulty-to-ok flip, and leaves
it unchanged when the validity is unchanged; consequently at every quiescent
point (any state reached by post-read events from the initial state) a module
fault counter equals the number of its currently faulty endpoints and is zero
iff the module validity is ok. -/
theorem postRead_faultCounter (inp : PostReadInput) (p : PropagatorState)
    (o : OwnerState) (app : AppCounters) :
    (inp.dataValidity ≠ p.lastValidity → inp.dataValidity = DataValidity.faulty →
      ((doPostRead inp p o app).2.1).dataFaultCounter = o.dataFaultCounter + 1) ∧
    (inp.dataValidity ≠ p.lastValidity → inp.dataValidity = DataValidity.ok →
      ((doPostRead inp p o app).2.1).dataFaultCounter = o.dataFaultCounter - 1) ∧
    (inp.dataValidity = p.lastValidity →
      ((doPostRead inp p o app).2.1).dataFaultCounter = o.dataFaultCounter) ∧
    (∀ (s : SystemState) (es : List Event), s.initialState → ∀ oIdx,
      ((s.run es).owners oIdx).dataFaultCounter = (s.run es).faultyCount oIdx ∧
      (((s.run es).owners oIdx).dataFaultCounter = 0 ↔
        getDataValidity ((s.run es).owners oIdx) = DataValidity.ok)) := by
  refine ⟨doPostRead_counter_incr inp p o app, doPostRead_counter_decr inp p o app,
    doPostRead_counter_same inp p o app, ?_⟩
  intro s es hinit oIdx
  exact ⟨run_ownerInv s es (initial_ownerInv s hinit) oIdx,
    (getDataValidity_ok_iff ((s.run es).owners oIdx)).symm⟩

/-- C3 witness: after one faulty read on a fresh one-endpoint system the
module fault counter matches the faulty-endpoint count. -/
theorem postRead_faultCounter_witness :
    ((c3Sys.run [c3Ev]).owners 0).dataFaultCounter = (c3Sys.run [c3Ev]).faultyCount 0 :=
  ((postRead_faultCounter c3Inp prop0 owner0 zeroCounters).2.2.2 c3Sys [c3Ev]
    ⟨fun _ _ => rfl, fun _ => rfl, fun _ => rfl⟩ 0).1

/-- C4: for an endpoint whose owner belongs to a circular dependency network
(non-zero hash), a validity flip increments (ok to faulty) or decrements
(faulty to ok) the shared invalidity counter exactly when the endpoint is not
cycle-internal; a cycle-internal endpoint never modifies the counter map; and
at every quiescent point each shared counter equals the number of currently
faulty external inputs of that cycle. -/
theorem postRead_circularCounter (inp : PostReadInput) (p : PropagatorState)
    (o : OwnerState) (app : AppCounters) :
    (o.circularNetworkHash ≠ 0 → p.isCircularInput = false →
      inp.dataValidity ≠ p.lastValidity →
      ((inp.dataValidity = DataValidity.faulty →
        (doPostRead inp p o app).2.2 = app.increment o.circularNetworkHash) ∧
       (inp.dataValidity = DataValidity.ok →
        (doPostRead inp p o app).2.2 = app.decrement o.circularNetworkHash))) ∧
    (p.isCircularInput = true → (doPostRead inp p o app).2.2 = app) ∧
    (∀ (s : SystemState) (es : List Event), s.initialState →
      s.nEndpoints < U64MOD → ∀ h, h ≠ 0 →
      (s.run es).app.counters h = (s.run es).externalFaultyCount h) := by
  refine ⟨?_, doPostRead_app_internal inp p o app, ?_⟩
  · intro hh hext hne
    exact ⟨fun hf => doPostRead_app_incr inp p o app hne hf hh hext,
      fun hok => doPostRead_app_decr inp p o app hne hok hh hext⟩
  · intro s es hinit hN h hne
    exact run_appInv s es hN (initial_appInv s hinit) h hne

/-- C4 witness: after one faulty read on a fresh one-endpoint cyclic system
the shared invalidity counter of the cycle matches the external faulty-input
count. -/
theorem postRead_circularCounter_witness :
    (c4Sys.run [c4Ev]).app.counters 5 = (c4Sys.run [c4Ev]).externalFaultyCount 5 :=
  (postRead_circularCounter c4Inp prop0 owner0 zeroCounters).2.2 c4Sys [c4Ev]
    ⟨fun _ _ => rfl, fun _ => rfl, fun _ => rfl⟩ (by decide) 5 (by decide)

/-- C5: the validity written to the target in pre-write is faulty if the
endpoint itself was explicitly marked faulty for this write, otherwise it
equals the owning module current validity; in particular it is faulty whenever
the owner validity is faulty, and ok only when neither condition holds. -/
theorem preWrite_validity (dv : DataValidity) (o : OwnerState) :
    (dv = DataValidity.faulty → doPreWrite dv o = DataValidity.faulty) ∧
    (dv = DataValidity.ok → doPreWrite dv o = getDataValidity o) ∧
    (getDataValidity o = DataValidity.faulty → doPreWrite dv o = DataValidity.faulty) ∧
    (doPreWrite dv o = DataValidity.ok ↔
      (dv = DataValidity.ok ∧ getDataValidity o = DataValidity.ok)) := by
  cases dv <;> cases hg : getDataValidity o <;> simp_all [doPreWrite]

/-- C5 witness: an ok-marked write mirrors the owner validity. -/
theorem preWrite_validity_witness :
    doPreWrite DataValidity.ok owner0 = getDataValidity owner0 :=
  (preWrite_validity DataValidity.ok owner0).2.1 rfl

/-- C6: in post-read the owning module current version number is updated from
the transfer version exactly when the target has wait_for_new_data access
mode and the transfer is a genuine read (through
DeviceModule::setCurrentVersionNumber); the stored version is monotonically
non-decreasing and an update with a version not greater than the stored one
leaves it unchanged. -/
theorem postRead_versionNumber (inp : PostReadInput) (p : PropagatorState)
    (o : OwnerState) (app : AppCounters) :
    (inp.waitForNewData = true → inp.ttype = TransferType.read →
      ((doPostRead inp p o app).2.1).currentVersionNumber
        = (setCurrentVersionNumber o inp.versionNumber).currentVersionNumber) ∧
    (¬(inp.waitForNewData = true ∧ inp.ttype = TransferType.read) →
      ((doPostRead inp p o app).2.1).currentVersionNumber = o.currentVersionNumber) ∧
    (o.currentVersionNumber ≤ ((doPostRead inp p o app).2.1).currentVersionNumber) ∧
    (inp.versionNumber ≤ o.currentVersionNumber →
      ((doPostRead inp p o app).2.1).currentVersionNumber = o.currentVersionNumber) := by
  have hv := doPostRead_version inp p o app
  refine ⟨?_, ?_, ?_, ?_⟩
  · intro hw ht
    rw [hv, if_pos (by simp [hw, ht])]
  · intro hc
    rw [hv, if_neg (by simp only [Bool.and_eq_true, beq_iff_eq]; exact hc)]
  · rw [hv]
    split
    · unfold setCurrentVersionNumber
      split
      · next hgt => dsimp only; omega
      · exact le_refl _
    · exact le_refl _
  · intro hle
    rw [hv]
    split
    · unfold setCurrentVersionNumber
      split
      · next hgt => dsimp only; omega
      · rfl
    · rfl

/-- C6 witness: a push-mode genuine read stamps the owner version from the
transfer version. -/
theorem postRead_versionNumber_witness :
    ((doPostRead c6Inp prop0 owner0 zeroCounters).2.1).currentVersionNumber
      = (setCurrentVersionNumber owner0 c6Inp.versionNumber).currentVersionNumber :=
  (postRead_versionNumber c6Inp prop0 owner0 zeroCounters).1 rfl rfl

end ChimeraTK
